import Mathlib

/-!
Shallow embedding of the Sales Dojo application (src/app.py).

External effects (hosted model calls, Drive listing/download, the
spreadsheet connection, text-to-speech) are modelled as explicit
parameters of the handlers: an `Option` result is `none` when the
corresponding call raised an exception or its JSON reply failed to
parse, and a `Bool` flag records whether a fallible remote operation
succeeded.  Streamlit session state is the `SessionState` record,
mirroring the keys initialised at the top of the script together with
the grading keys that are only created later.
-/

/-- One entry of the `chat_history` list: a speaker role
("Agent" or "Buyer") and the message text. -/
structure ChatMsg where
  role : String
  content : String
deriving Repr, DecidableEq

/-- One entry of the `mode_2_chat` list: transcript of the user's
objection, the model's rebuttal and explanation, and the synthesized
audio bytes when text-to-speech succeeded. -/
structure Mode2Msg where
  user_text : String
  rebuttal : String
  explanation : String
  audio : Option (List Nat)
deriving Repr, DecidableEq

/-- The session state.  The first eight fields mirror the keys written
by the initialisation block; `graded`, `final_score` and
`final_feedback` mirror the keys created by the grading block, with
`graded = false` and the `none` values modelling the keys being absent
(the script tests membership with `"graded" not in st.session_state`).
The cached `active_model` name is irrelevant to the state machine and
is not modelled. -/
structure SessionState where
  chat_history : List ChatMsg
  turn_count : Nat
  roleplay_active : Bool
  session_started : Bool
  current_tip : Option String
  kb_text : String
  file_names : List String
  mode_2_chat : List Mode2Msg
  graded : Bool
  final_score : Option Int
  final_feedback : Option String
deriving Repr, DecidableEq

/-- The session state right after the initialisation block runs on a
fresh browser session. -/
def initialState : SessionState :=
  { chat_history := []
    turn_count := 0
    roleplay_active := true
    session_started := false
    current_tip := none
    kb_text := ""
    file_names := []
    mode_2_chat := []
    graded := false
    final_score := none
    final_feedback := none }

/-- The list of secret keys whose presence the startup block checks:
`required_secrets = ["GOOGLE_API_KEY", "drive"]`. -/
def required_secrets : List String := ["GOOGLE_API_KEY", "drive"]

/-- The startup check: the application stops at the setup-instructions
screen iff some key of `required_secrets` is missing from the set of
top-level secret keys.  The service-account blob lives under the
separate top-level key "connections" and is not part of this check. -/
def startupBlocked (secretKeys : List String) : Bool :=
  !(required_secrets.all (fun k => secretKeys.contains k))

/-- One PDF file found in the Drive folder: its name and the text
extracted from its pages (each page contributing its text plus a
trailing newline). -/
structure DriveFile where
  name : String
  text : String
deriving Repr, DecidableEq

/-- Embedding of `load_knowledge_base_from_drive`.  `serviceOk = false`
models `get_drive_service()` having returned `None` after a failed
credential load; `listing = none` models an exception raised inside the
`try` block (listing, download, or PDF extraction). -/
def load_knowledge_base_from_drive (serviceOk : Bool)
    (listing : Option (List DriveFile)) : String × List String :=
  if !serviceOk then ("", [])
  else
    match listing with
    | none => ("", [])
    | some items =>
      if items.isEmpty then ("", [])
      else
        (items.foldl (fun acc it =>
            acc ++ "\n\n--- SOURCE: " ++ it.name ++ " ---\n" ++ it.text) "",
         items.map (fun it => it.name))

/-- The Reset Session button handler: clears the turn list, the turn
counter, the started flag, the coaching tip and the Mode 2 chat, and
re-arms `roleplay_active`.  It does not touch the knowledge base or the
grading keys. -/
def resetSession (s : SessionState) : SessionState :=
  { s with chat_history := []
           turn_count := 0
           roleplay_active := true
           session_started := false
           current_tip := none
           mode_2_chat := [] }

/-- The Reload Training Data button handler: the fetched pair replaces
the stored knowledge base only when the fetched text is non-empty;
otherwise only an error message is shown and state is untouched. -/
def reloadHandler (s : SessionState) (fetched : String × List String) :
    SessionState :=
  if fetched.1 ≠ "" then
    { s with kb_text := fetched.1, file_names := fetched.2 }
  else s

/-- The initial knowledge-base load block, guarded by `kb_text` being
empty; on an empty fetch it writes the empty text and list back. -/
def initialKBLoad (s : SessionState) (fetched : String × List String) :
    SessionState :=
  if s.kb_text = "" then
    if fetched.1 ≠ "" then
      { s with kb_text := fetched.1, file_names := fetched.2 }
    else
      { s with kb_text := "", file_names := [] }
  else s

/-- What a mode's entry guards decide before any handler runs. -/
inductive ModeGate where
  | needName
  | emptyKB
  | proceed
deriving Repr, DecidableEq

/-- Mode 1 entry guards: first the missing-agent-name warning, then the
empty-knowledge-base notice; each stops rendering of the rest of the
mode. -/
def mode1Gate (agent_name : String) (s : SessionState) : ModeGate :=
  if agent_name = "" then ModeGate.needName
  else if s.kb_text = "" then ModeGate.emptyKB
  else ModeGate.proceed

/-- Mode 2 entry guard: only the empty-knowledge-base notice. -/
def mode2Gate (s : SessionState) : ModeGate :=
  if s.kb_text = "" then ModeGate.emptyKB
  else ModeGate.proceed

/-- The MIME-type sniff applied to the recorded bytes: RIFF magic means
WAV, anything else is treated as WebM. -/
def sniffMime (audio_bytes : List Nat) : String :=
  if audio_bytes.take 4 = [82, 73, 70, 70] then "audio/wav"
  else "audio/webm"

/-- The parsed JSON reply of a Mode 1 turn.  Both fields are read with
`.get` and a default, so neither is required. -/
structure Mode1Reply where
  response_text : Option String
  strategy_tip : Option String
deriving Repr, DecidableEq

/-- The parsed JSON reply of a Mode 2 turn.  `user_transcript` is read
with `.get`; `rebuttal_text` and `why_it_works` are read by indexing,
so their absence raises a KeyError inside the `try`. -/
structure Mode2Reply where
  user_transcript : Option String
  rebuttal_text : Option String
  why_it_works : Option String
deriving Repr, DecidableEq

/-- How a turn handler invocation ended. -/
inductive TurnOutcome where
  | skipped
  | noAudio
  | aiError
  | ok
deriving Repr, DecidableEq

/-- Result of running a turn handler: the new session state, how the
handler ended, whether `generate_content` was invoked, and the MIME
type passed along with the audio when it was. -/
structure TurnResult where
  state : SessionState
  outcome : TurnOutcome
  modelCalled : Bool
  callMime : Option String
deriving Repr, DecidableEq

/-- The Mode 1 ("Roleplay as Realtor") audio-turn handler.  The code
runs only when `roleplay_active` is set; audio under 100 bytes is
rejected with "No audio captured." before any model call; then the
model is called and `reply = none` models `generate_content` raising or
`json.loads` failing, which the `except` turns into an error message
with no state change.  On success the coaching tip is replaced and the
two turn records are appended before the counter increments. -/
def mode1Turn (s : SessionState) (audio_bytes : List Nat)
    (reply : Option Mode1Reply) : TurnResult :=
  if s.roleplay_active then
    if audio_bytes.length < 100 then
      { state := s, outcome := TurnOutcome.noAudio
        modelCalled := false, callMime := none }
    else
      match reply with
      | none =>
        { state := s, outcome := TurnOutcome.aiError
          modelCalled := true, callMime := some (sniffMime audio_bytes) }
      | some r =>
        { state :=
            { s with
              current_tip := some (r.strategy_tip.getD "")
              chat_history := s.chat_history ++
                [{ role := "Agent", content := "(Audio Input)" },
                 { role := "Buyer", content := r.response_text.getD "" }]
              turn_count := s.turn_count + 1 }
          outcome := TurnOutcome.ok
          modelCalled := true, callMime := some (sniffMime audio_bytes) }
  else
    { state := s, outcome := TurnOutcome.skipped
      modelCalled := false, callMime := none }

/-- The "Finish and Grade Session" button handler: it only flips
`roleplay_active`, which makes the final grading block render. -/
def finishAndGrade (s : SessionState) : SessionState :=
  { s with roleplay_active := false }

/-- The Mode 2 ("Roleplay as Homebuyer") audio-turn handler.  The
handler is guarded by a non-empty knowledge base, performs no audio
size check, sniffs the MIME type and calls the model; a reply that
fails to parse or lacks `rebuttal_text` or `why_it_works` raises inside
the `try` and leaves state untouched; a good reply is appended to
`mode_2_chat` and the counter increments. -/
def mode2Turn (s : SessionState) (audio_bytes : List Nat)
    (reply : Option Mode2Reply) (tts : Option (List Nat)) : TurnResult :=
  if s.kb_text = "" then
    { state := s, outcome := TurnOutcome.skipped
      modelCalled := false, callMime := none }
  else
    match reply with
    | none =>
      { state := s, outcome := TurnOutcome.aiError
        modelCalled := true, callMime := some (sniffMime audio_bytes) }
    | some r =>
      match r.rebuttal_text with
      | none =>
        { state := s, outcome := TurnOutcome.aiError
          modelCalled := true, callMime := some (sniffMime audio_bytes) }
      | some reb =>
        match r.why_it_works with
        | none =>
          { state := s, outcome := TurnOutcome.aiError
            modelCalled := true, callMime := some (sniffMime audio_bytes) }
        | some why =>
          { state :=
              { s with
                mode_2_chat := s.mode_2_chat ++
                  [{ user_text := r.user_transcript.getD "(No transcript available)"
                     rebuttal := reb
                     explanation := why
                     audio := tts }]
                turn_count := s.turn_count + 1 }
            outcome := TurnOutcome.ok
            modelCalled := true, callMime := some (sniffMime audio_bytes) }

/-- Whether a Mode 2 reply makes it past JSON parsing and the two
required-field accesses. -/
def mode2ReplyOk : Option Mode2Reply → Bool
  | none => false
  | some r => r.rebuttal_text.isSome && r.why_it_works.isSome

/-- The parsed JSON of the grading model call. -/
structure GradeResult where
  score : Int
  feedback_summary : String
  magic_words : String
deriving Repr, DecidableEq

/-- One row of the scorecard spreadsheet:
{Date, Agent Name, Score, Feedback}. -/
structure SheetRow where
  date : String
  agent_name : String
  score : Int
  feedback : String
deriving Repr, DecidableEq

/-- The transcript string built from the chat history for the grading
prompt. -/
def buildTranscript (history : List ChatMsg) : String :=
  String.intercalate "\n" (history.map (fun m => m.role ++ ": " ++ m.content))

/-- Embedding of `calculate_final_grade_and_save`.  The whole body sits
in one `try`: `modelResp = none` models the model call or its JSON
parse (or a missing key) raising; `readOk` and `updateOk` model the
spreadsheet read and overwrite succeeding.  On success the sheet
becomes the read rows plus the one new row and the computed pair is
returned; any exception is caught and `(0, "Error generating grade: "
++ exn)` is returned with the sheet unchanged. -/
def calculate_final_grade_and_save (agent_name date exn : String)
    (modelResp : Option GradeResult) (readOk updateOk : Bool)
    (sheet : List SheetRow) : (Int × String) × List SheetRow :=
  match modelResp with
  | none => ((0, "Error generating grade: " ++ exn), sheet)
  | some r =>
    let final_score := r.score
    let final_feedback :=
      r.feedback_summary ++ " \n\n🔥 MEMORIZE THIS: " ++ r.magic_words
    if readOk then
      if updateOk then
        ((final_score, final_feedback),
         sheet ++ [{ date := date, agent_name := agent_name
                     score := final_score, feedback := final_feedback }])
      else ((0, "Error generating grade: " ++ exn), sheet)
    else ((0, "Error generating grade: " ++ exn), sheet)

/-- Result of the final grading block: the session state afterwards,
the spreadsheet afterwards, and whether the grading function was
invoked at all. -/
structure GradingBlockResult where
  state : SessionState
  sheet : List SheetRow
  called : Bool
deriving Repr, DecidableEq

/-- The final grading block of Mode 1: it renders only when
`roleplay_active` is off, invokes `calculate_final_grade_and_save` only
when the `graded` key is absent, and stores the returned pair under
`final_score` and `final_feedback`. -/
def gradingBlock (s : SessionState) (agent_name date exn : String)
    (modelResp : Option GradeResult) (readOk updateOk : Bool)
    (sheet : List SheetRow) : GradingBlockResult :=
  if s.roleplay_active then
    { state := s, sheet := sheet, called := false }
  else if s.graded then
    { state := s, sheet := sheet, called := false }
  else
    let res := calculate_final_grade_and_save agent_name date exn
      modelResp readOk updateOk sheet
    { state :=
        { s with graded := true
                 final_score := some res.1.1
                 final_feedback := some res.1.2 }
      sheet := res.2
      called := true }

/-- What the score/feedback display shows: it renders whenever the
`final_score` key exists, reading both stored values. -/
def displayedResults (s : SessionState) : Option (Int × String) :=
  match s.final_score, s.final_feedback with
  | some sc, some fb => some (sc, fb)
  | _, _ => none

/-- Claim C8: resetting the session empties the turn list, sets the
turn counter to zero, and sets the session-active flag back to true,
for every prior state. -/
theorem reset_clears_session (s : SessionState) :
    (resetSession s).chat_history = [] ∧
    (resetSession s).turn_count = 0 ∧
    (resetSession s).roleplay_active = true :=
  ⟨rfl, rfl, rfl⟩

/-- Claim C10: when the fetch behind a manual reload returns an empty
text (remote failure or empty folder), the reload handler leaves the
whole session state, in particular the previously loaded knowledge-base
text and filename list, unchanged. -/
theorem failed_reload_keeps_previous_kb (s : SessionState)
    (fetched : String × List String) (h : fetched.1 = "") :
    reloadHandler s fetched = s ∧
    (reloadHandler s fetched).kb_text = s.kb_text ∧
    (reloadHandler s fetched).file_names = s.file_names := by
  have hr : reloadHandler s fetched = s := by
    simp [reloadHandler, h]
  exact ⟨hr, by rw [hr], by rw [hr]⟩

/-- Witness for C10 at a state holding an old knowledge base and an
empty fetch result. -/
theorem failed_reload_keeps_previous_kb_witness :
    reloadHandler { initialState with kb_text := "old kb", file_names := ["a.pdf"] }
        ("", ["ghost.pdf"])
      = { initialState with kb_text := "old kb", file_names := ["a.pdf"] } ∧
    (reloadHandler { initialState with kb_text := "old kb", file_names := ["a.pdf"] }
        ("", ["ghost.pdf"])).kb_text
      = ({ initialState with kb_text := "old kb", file_names := ["a.pdf"] } : SessionState).kb_text ∧
    (reloadHandler { initialState with kb_text := "old kb", file_names := ["a.pdf"] }
        ("", ["ghost.pdf"])).file_names
      = ({ initialState with kb_text := "old kb", file_names := ["a.pdf"] } : SessionState).file_names :=
  failed_reload_keeps_previous_kb
    { initialState with kb_text := "old kb", file_names := ["a.pdf"] }
    ("", ["ghost.pdf"]) rfl

/-- Claim C5: on the success path, the persisted sheet is exactly the
previously read rows followed by one new row whose score and feedback
fields equal the just-computed score and feedback pair; hence N rows
become N+1 rows with the first N preserved. -/
theorem scorecard_append_adds_one_row (agent date exn : String)
    (r : GradeResult) (sheet : List SheetRow) :
    (calculate_final_grade_and_save agent date exn (some r) true true sheet).2
      = sheet ++
        [{ date := date, agent_name := agent
           score := (calculate_final_grade_and_save agent date exn (some r) true true sheet).1.1
           feedback := (calculate_final_grade_and_save agent date exn (some r) true true sheet).1.2 }] ∧
    (calculate_final_grade_and_save agent date exn (some r) true true sheet).2.length
      = sheet.length + 1 ∧
    (calculate_final_grade_and_save agent date exn (some r) true true sheet).2.take sheet.length
      = sheet ∧
    (calculate_final_grade_and_save agent date exn (some r) true true sheet).1
      = (r.score, r.feedback_summary ++ " \n\n🔥 MEMORIZE THIS: " ++ r.magic_words) := by
  refine ⟨rfl, ?_, ?_, rfl⟩
  · simp [calculate_final_grade_and_save]
  · simp [calculate_final_grade_and_save, List.take_left]

/-- Counterexample to claim C7: a secrets store holding the model-API
key and the drive folder section but no "connections" entry (hence no
cloud-storage service-account credential set) passes the startup check,
so the absence of that third secret does not produce the blocking setup
screen; instead the later Drive connection fails and the knowledge-base
fetch degrades to an empty result. -/
theorem missing_credentials_does_not_block_startup :
    startupBlocked ["GOOGLE_API_KEY", "drive"] = false ∧
    load_knowledge_base_from_drive false none = ("", []) := by
  exact ⟨rfl, rfl⟩

/-- Claim C7 amended: only two top-level secrets are required at
startup — the model-API key and the drive folder section; the startup
check blocks iff either of those is missing, independently of whether
the service-account credential set is present. -/
theorem startup_checks_two_keys_only (secretKeys : List String) :
    startupBlocked secretKeys
      = !(secretKeys.contains "GOOGLE_API_KEY" && secretKeys.contains "drive") := by
  simp [startupBlocked, required_secrets]

/-- Claim C6: when the Drive service is unavailable, the remote call
raises, or the folder lists zero matching PDF files, the fetch returns
an empty text and an empty filename list, and with the resulting empty
knowledge base both roleplay modes stop at the knowledge-base-empty
notice instead of crashing. -/
theorem empty_folder_gives_empty_kb (serviceOk : Bool)
    (listing : Option (List DriveFile)) (agent_name : String)
    (s : SessionState)
    (h : serviceOk = false ∨ listing = none ∨ listing = some [])
    (hn : agent_name ≠ "") :
    load_knowledge_base_from_drive serviceOk listing = ("", []) ∧
    mode1Gate agent_name { s with kb_text := "", file_names := [] }
      = ModeGate.emptyKB ∧
    mode2Gate { s with kb_text := "", file_names := [] }
      = ModeGate.emptyKB := by
  refine ⟨?_, ?_, ?_⟩
  · rcases h with h | h | h
    · subst h; rfl
    · subst h; cases serviceOk <;> rfl
    · subst h; cases serviceOk <;> rfl
  · simp [mode1Gate, hn]
  · simp [mode2Gate]

/-- Witness for C6 at an available service listing an empty folder. -/
theorem empty_folder_gives_empty_kb_witness :
    load_knowledge_base_from_drive true (some []) = ("", []) ∧
    mode1Gate "Ann" { initialState with kb_text := "", file_names := [] }
      = ModeGate.emptyKB ∧
    mode2Gate { initialState with kb_text := "", file_names := [] }
      = ModeGate.emptyKB :=
  empty_folder_gives_empty_kb true (some []) "Ann" initialState
    (Or.inr (Or.inr rfl)) (by decide)

/-- Claim C3: a turn whose model reply fails to parse as JSON (Mode 1),
or fails to parse or lacks one of the required fields `rebuttal_text`
and `why_it_works` (Mode 2), leaves the whole session state — turn
list, turn counter, coaching tip and Mode 2 chat list — exactly as it
was. -/
theorem parse_failure_leaves_state_unchanged (s : SessionState)
    (a1 a2 : List Nat) (r2 : Option Mode2Reply) (tts : Option (List Nat))
    (h2 : mode2ReplyOk r2 = false) :
    (mode1Turn s a1 none).state = s ∧
    (mode2Turn s a2 r2 tts).state = s := by
  constructor
  · by_cases hA : s.roleplay_active = true <;>
      by_cases hL : a1.length < 100 <;>
        simp [mode1Turn, hA, hL]
  · by_cases hK : s.kb_text = ""
    · simp [mode2Turn, hK]
    · cases r2 with
      | none => simp [mode2Turn, hK]
      | some r =>
        cases hreb : r.rebuttal_text with
        | none => simp [mode2Turn, hK, hreb]
        | some reb =>
          cases hwhy : r.why_it_works with
          | none => simp [mode2Turn, hK, hreb, hwhy]
          | some why =>
            exfalso
            simp [mode2ReplyOk, hreb, hwhy] at h2

/-- Witness for C3 at a started session with a loaded knowledge base, a
100-byte clip, a non-parsing Mode 1 reply and a Mode 2 reply missing
its required field. -/
theorem parse_failure_leaves_state_unchanged_witness :
    (mode1Turn { initialState with kb_text := "kb", session_started := true }
        (List.replicate 100 0) none).state
      = { initialState with kb_text := "kb", session_started := true } ∧
    (mode2Turn { initialState with kb_text := "kb", session_started := true }
        (List.replicate 100 0)
        (some { user_transcript := some "t", rebuttal_text := none
                why_it_works := some "w" }) none).state
      = { initialState with kb_text := "kb", session_started := true } :=
  parse_failure_leaves_state_unchanged
    { initialState with kb_text := "kb", session_started := true }
    (List.replicate 100 0) (List.replicate 100 0)
    (some { user_transcript := some "t", rebuttal_text := none
            why_it_works := some "w" }) none rfl

/-- Counterexample to claim C2: completed exchanges at turn counts 3
and 10 (the two variant maxima) leave the session active with the
counter moving past the supposed maximum, while the Finish button moves
a session at turn count 1 into the grading phase — so the transition is
not tied to any configured maximum. -/
theorem no_automatic_grading_at_turn_limit :
    (mode1Turn { initialState with kb_text := "kb", session_started := true, turn_count := 3 }
        (List.replicate 100 0)
        (some { response_text := some "Okay.", strategy_tip := some "Tip" })).state.roleplay_active
      = true ∧
    (mode1Turn { initialState with kb_text := "kb", session_started := true, turn_count := 3 }
        (List.replicate 100 0)
        (some { response_text := some "Okay.", strategy_tip := some "Tip" })).state.turn_count
      = 4 ∧
    (mode1Turn { initialState with kb_text := "kb", session_started := true, turn_count := 10 }
        (List.replicate 100 0)
        (some { response_text := some "Okay.", strategy_tip := some "Tip" })).state.roleplay_active
      = true ∧
    (mode1Turn { initialState with kb_text := "kb", session_started := true, turn_count := 10 }
        (List.replicate 100 0)
        (some { response_text := some "Okay.", strategy_tip := some "Tip" })).state.turn_count
      = 11 ∧
    (finishAndGrade { initialState with kb_text := "kb", session_started := true, turn_count := 1 }).roleplay_active
      = false := by
  refine ⟨?_, ?_, ?_, ?_, rfl⟩ <;> decide

/-- Claim C2 amended: the session enters the grading phase only through
the explicit Finish action, which works at any turn count; a turn never
changes the phase flag (it increments the counter by one exactly when
the session is active and the audio passes the size check), and the
grading computation is guarded so it runs exactly on the first render
of the grading block and never again. -/
theorem grading_transition_only_via_finish (s : SessionState)
    (audio : List Nat) (reply : Option Mode1Reply) (r : Mode1Reply)
    (agent date exn : String) (modelResp : Option GradeResult)
    (readOk updateOk : Bool) (sheet : List SheetRow) :
    (mode1Turn s audio reply).state.roleplay_active = s.roleplay_active ∧
    (mode1Turn s audio (some r)).state.turn_count
      = (if s.roleplay_active = true ∧ ¬ (audio.length < 100)
          then s.turn_count + 1 else s.turn_count) ∧
    (finishAndGrade s).roleplay_active = false ∧
    (gradingBlock s agent date exn modelResp readOk updateOk sheet).called
      = (!s.roleplay_active && !s.graded) ∧
    (gradingBlock s agent date exn modelResp readOk updateOk sheet).state.graded
      = (s.graded || !s.roleplay_active) := by
  refine ⟨?_, ?_, rfl, ?_, ?_⟩
  · by_cases hA : s.roleplay_active = true <;>
      by_cases hL : audio.length < 100 <;>
        cases reply <;> simp [mode1Turn, hA, hL]
  · by_cases hA : s.roleplay_active = true <;>
      by_cases hL : audio.length < 100 <;>
        simp [mode1Turn, hA, hL]
  · by_cases hA : s.roleplay_active = true <;>
      by_cases hG : s.graded = true <;>
        simp [gradingBlock, hA, hG]
  · by_cases hA : s.roleplay_active = true <;>
      by_cases hG : s.graded = true <;>
        simp [gradingBlock, hA, hG]

/-- Counterexample to claim C4: in Mode 2 a 1-byte clip — far below the
100-byte minimum Mode 1 enforces — still reaches `generate_content`:
the handler has no size check, so the claim fails for one of the two
roleplay modes. -/
theorem mode2_undersized_audio_calls_model :
    ([1] : List Nat).length < 100 ∧
    (mode2Turn { initialState with kb_text := "kb" } [1]
        (some { user_transcript := some "t", rebuttal_text := some "reb"
                why_it_works := some "why" }) none).modelCalled
      = true := by
  exact ⟨by decide, rfl⟩

/-- Claim C4 amended: only Mode 1 enforces the minimum size — an active
Mode 1 session rejects audio under 100 bytes with the no-audio outcome
and no model call; Mode 2 with a loaded knowledge base invokes the
model whatever the audio length. -/
theorem undersized_audio_mode1_rejected (s : SessionState)
    (audio : List Nat) (r1 : Option Mode1Reply) (r2 : Option Mode2Reply)
    (tts : Option (List Nat)) (h : audio.length < 100)
    (ha : s.roleplay_active = true) (hk : s.kb_text ≠ "") :
    mode1Turn s audio r1
      = { state := s, outcome := TurnOutcome.noAudio
          modelCalled := false, callMime := none } ∧
    (mode2Turn s audio r2 tts).modelCalled = true := by
  constructor
  · simp [mode1Turn, ha, h]
  · cases r2 with
    | none => simp [mode2Turn, hk]
    | some r =>
      rcases r with ⟨ut, reb, why⟩
      cases reb <;> cases why <;> simp [mode2Turn, hk]

/-- Witness for the amended C4 at an active session with a loaded
knowledge base and an empty recording. -/
theorem undersized_audio_mode1_rejected_witness :
    mode1Turn { initialState with kb_text := "kb" } [] none
      = { state := { initialState with kb_text := "kb" }
          outcome := TurnOutcome.noAudio
          modelCalled := false, callMime := none } ∧
    (mode2Turn { initialState with kb_text := "kb" } [] none none).modelCalled
      = true :=
  undersized_audio_mode1_rejected { initialState with kb_text := "kb" }
    [] none none none (by decide) rfl (by decide)

/-- Counterexample to claim C1: with a model-computed score of 7 and a
failing spreadsheet overwrite, the single try/except in the grading
function catches the persistence error and returns score 0 with an
error text, so the grading block stores and the display shows
(0, error) — the computed score 7 is never shown to the user. -/
theorem persist_failure_masks_computed_score :
    (calculate_final_grade_and_save "Ann" "2026-01-01 00:00:00" "update failed"
        (some { score := 7, feedback_summary := "Strong rebuttal"
                magic_words := "Say this" }) true false []).1.1 = 0 ∧
    ¬ ((calculate_final_grade_and_save "Ann" "2026-01-01 00:00:00" "update failed"
        (some { score := 7, feedback_summary := "Strong rebuttal"
                magic_words := "Say this" }) true false []).1.1 = 7) ∧
    displayedResults (gradingBlock
        { initialState with kb_text := "kb", roleplay_active := false }
        "Ann" "2026-01-01 00:00:00" "update failed"
        (some { score := 7, feedback_summary := "Strong rebuttal"
                magic_words := "Say this" }) true false []).state
      = some (0, "Error generating grade: update failed") := by
  refine ⟨rfl, by decide, rfl⟩

/-- Claim C1 amended: any failure inside the grading function — the
model call or parse failing, the spreadsheet read failing, or the
overwrite failing — makes it return score 0 with the error text and
leave the sheet unchanged; the grading block then stores and displays
that error pair, not the model-computed score. -/
theorem grading_failure_returns_error_score (s : SessionState)
    (agent date exn : String) (modelResp : Option GradeResult)
    (readOk updateOk : Bool) (sheet : List SheetRow)
    (h : modelResp = none ∨ readOk = false ∨ updateOk = false) :
    calculate_final_grade_and_save agent date exn modelResp readOk updateOk sheet
      = ((0, "Error generating grade: " ++ exn), sheet) ∧
    displayedResults (gradingBlock
        { s with roleplay_active := false, graded := false }
        agent date exn modelResp readOk updateOk sheet).state
      = some (0, "Error generating grade: " ++ exn) ∧
    (gradingBlock { s with roleplay_active := false, graded := false }
        agent date exn modelResp readOk updateOk sheet).sheet = sheet := by
  have hc : calculate_final_grade_and_save agent date exn modelResp readOk updateOk sheet
      = ((0, "Error generating grade: " ++ exn), sheet) := by
    rcases h with h | h | h <;> subst h
    · rfl
    · cases modelResp <;> rfl
    · cases modelResp with
      | none => rfl
      | some r => cases readOk <;> rfl
  refine ⟨hc, ?_, ?_⟩
  · simp [gradingBlock, hc, displayedResults]
  · simp [gradingBlock, hc]

/-- Witness for the amended C1 at a successful model reply whose
persistence overwrite fails. -/
theorem grading_failure_returns_error_score_witness :
    calculate_final_grade_and_save "Ann" "2026-01-01 00:00:00" "quota"
        (some { score := 9, feedback_summary := "fs", magic_words := "mw" })
        true false []
      = ((0, "Error generating grade: " ++ "quota"), []) ∧
    displayedResults (gradingBlock
        { initialState with roleplay_active := false, graded := false }
        "Ann" "2026-01-01 00:00:00" "quota"
        (some { score := 9, feedback_summary := "fs", magic_words := "mw" })
        true false []).state
      = some (0, "Error generating grade: " ++ "quota") ∧
    (gradingBlock { initialState with roleplay_active := false, graded := false }
        "Ann" "2026-01-01 00:00:00" "quota"
        (some { score := 9, feedback_summary := "fs", magic_words := "mw" })
        true false []).sheet = [] :=
  grading_failure_returns_error_score initialState "Ann" "2026-01-01 00:00:00"
    "quota" (some { score := 9, feedback_summary := "fs", magic_words := "mw" })
    true false [] (Or.inr (Or.inr rfl))

/-- Claim C9: resetting the session leaves the grading keys `graded`,
`final_score` and `final_feedback` untouched, and once `graded` is set,
any later render of the grading block skips both the recomputation and
the persistence, leaving state and sheet as they are and redisplaying
the previously stored score and feedback. -/
theorem reset_preserves_grading_results (s : SessionState)
    (agent date exn : String) (modelResp : Option GradeResult)
    (readOk updateOk : Bool) (sheet : List SheetRow)
    (hg : s.graded = true) :
    (resetSession s).graded = true ∧
    (resetSession s).final_score = s.final_score ∧
    (resetSession s).final_feedback = s.final_feedback ∧
    (gradingBlock { s with roleplay_active := false }
        agent date exn modelResp readOk updateOk sheet).state
      = { s with roleplay_active := false } ∧
    (gradingBlock { s with roleplay_active := false }
        agent date exn modelResp readOk updateOk sheet).called = false ∧
    (gradingBlock { s with roleplay_active := false }
        agent date exn modelResp readOk updateOk sheet).sheet = sheet ∧
    displayedResults (gradingBlock { s with roleplay_active := false }
        agent date exn modelResp readOk updateOk sheet).state
      = displayedResults s := by
  refine ⟨by simp [resetSession, hg], rfl, rfl, ?_, ?_, ?_, ?_⟩ <;>
    simp [gradingBlock, hg, displayedResults]

/-- Witness for C9 at an already-graded session holding a stored score
of 6. -/
theorem reset_preserves_grading_results_witness :
    (resetSession { initialState with graded := true, final_score := some 6, final_feedback := some "fb" }).graded = true ∧
    (resetSession { initialState with graded := true, final_score := some 6, final_feedback := some "fb" }).final_score
      = ({ initialState with graded := true, final_score := some 6, final_feedback := some "fb" } : SessionState).final_score ∧
    (resetSession { initialState with graded := true, final_score := some 6, final_feedback := some "fb" }).final_feedback
      = ({ initialState with graded := true, final_score := some 6, final_feedback := some "fb" } : SessionState).final_feedback ∧
    (gradingBlock { { initialState with graded := true, final_score := some 6, final_feedback := some "fb" } with roleplay_active := false }
        "Ann" "d" "e" none true true []).state
      = { { initialState with graded := true, final_score := some 6, final_feedback := some "fb" } with roleplay_active := false } ∧
    (gradingBlock { { initialState with graded := true, final_score := some 6, final_feedback := some "fb" } with roleplay_active := false }
        "Ann" "d" "e" none true true []).called = false ∧
    (gradingBlock { { initialState with graded := true, final_score := some 6, final_feedback := some "fb" } with roleplay_active := false }
        "Ann" "d" "e" none true true []).sheet = [] ∧
    displayedResults (gradingBlock
        { { initialState with graded := true, final_score := some 6, final_feedback := some "fb" } with roleplay_active := false }
        "Ann" "d" "e" none true true []).state
      = displayedResults { initialState with graded := true, final_score := some 6, final_feedback := some "fb" } :=
  reset_preserves_grading_results
    { initialState with graded := true, final_score := some 6, final_feedback := some "fb" }
    "Ann" "d" "e" none true true [] rfl
